import Mathlib

/-!
Verification of the Panorama Tab Groups synchronization engine.

Shallow embedding of the extension's background logic: the persistent state
store (`StateManager.js`), the group registry and lifecycle handlers
(`background.js`), and the native-group reconciler (`native-groups.js`).
JavaScript numbers that may be fractional are modelled as `ℚ`; JavaScript's
three-valued `undefined` / `null` / number fields are modelled by explicit
inductives (`JsOpt`, `NativeRef`).  Host-side effects are modelled as values
of an explicit `HostCall` trace type, so that "no host call is issued" is a
statement about the produced trace.
-/

namespace Panorama

/-! ## constants.js -/

/-- Reserved id of the panorama-view (overview) pseudo-group. -/
def PANORAMA_VIEW_GROUP_ID : Int := -1

/-- Reserved id of the ungrouped pseudo-group. -/
def UNGROUPED_GROUP_ID : Int := -2

/-- Immutable name of the ungrouped pseudo-group. -/
def UNGROUPED_GROUP_NAME : String := "Ungrouped Tabs"

/-- Function `isReservedGroupId` from constants.js. -/
def isReservedGroupId (groupId : Int) : Bool :=
  groupId == PANORAMA_VIEW_GROUP_ID || groupId == UNGROUPED_GROUP_ID

/-! ## JavaScript value modelling -/

/-- A JavaScript `group.nativeGroupId` field: missing (`undefined`), `null`,
or an actual native-group id. -/
inductive NativeRef where
  | absent
  | nullRef
  | ref (id : Int)
deriving DecidableEq, Repr

/-- JavaScript truthiness of a `nativeGroupId` value (`if (g.nativeGroupId)`). -/
def NativeRef.truthy : NativeRef → Bool
  | .ref n => n != 0
  | _ => false

/-- The JavaScript test `x !== undefined && x !== null`. -/
def NativeRef.present : NativeRef → Bool
  | .ref _ => true
  | _ => false

/-- The id held by a `ref`; only meaningful when `present`. -/
def NativeRef.refId : NativeRef → Int
  | .ref n => n
  | _ => 0

/-- A stored JavaScript integer value that may be `undefined` or `null`
(as read back by `browser.sessions.getWindowValue`). -/
inductive JsOpt where
  | undef
  | nullv
  | val (n : Int)
deriving DecidableEq, Repr

/-! ## Data model: groups -/

/-- The opaque UI rectangle payload of a group. -/
structure Rect where
  x : ℚ
  y : ℚ
  w : ℚ
  h : ℚ
deriving DecidableEq, Repr

/-- A logical (panorama) group record as persisted in session storage. -/
structure Group where
  id : Int
  name : String
  containerId : String
  nativeGroupId : NativeRef
  rect : Rect
  lastMoved : Int
  isSystemGroup : Option Bool
deriving DecidableEq, Repr

/-! ## StateManager.js -/

/-- The ungrouped pseudo-group with its system defaults, as pushed by
`ensureUngroupedGroupExists` when the group is missing. -/
def defaultUngroupedGroup (now : Int) : Group :=
  { id := UNGROUPED_GROUP_ID
    name := UNGROUPED_GROUP_NAME
    containerId := "browser-default"
    nativeGroupId := .nullRef
    rect := ⟨0, 0, 0, 0⟩
    lastMoved := now
    isSystemGroup := some true }

/-- The immutable-property enforcement applied to an existing ungrouped
entry by `ensureUngroupedGroupExists`. -/
def enforceUngrouped (g : Group) : Group :=
  { g with name := UNGROUPED_GROUP_NAME
           isSystemGroup := some true
           nativeGroupId := .nullRef }

/-- Method `StateManager.ensureUngroupedGroupExists`: guarantee the ungrouped
pseudo-group (id -2) is present, repairing its immutable fields when it is. -/
def ensureUngroupedGroupExists (now : Int) (groups : Option (List Group)) :
    List Group :=
  let gs := groups.getD []
  match gs.findIdx? (fun g => g.id == UNGROUPED_GROUP_ID) with
  | some i =>
    match gs.get? i with
    | some g => gs.set i (enforceUngrouped g)
    | none => gs
  | none => gs ++ [defaultUngroupedGroup now]

/-- The per-window session storage tier holding the `groups` key. -/
structure SessionStore where
  groupsOf : Int → Option (List Group)

/-- Method `StateManager.getGroups`. -/
def getGroups (st : SessionStore) (windowId : Int) : Option (List Group) :=
  st.groupsOf windowId

/-- Method `StateManager.setGroups`: auto-repairs the ungrouped pseudo-group before
persisting (`now` stands for `Date.now()` used for a fresh `lastMoved`). -/
def setGroups (st : SessionStore) (windowId : Int) (now : Int)
    (groups : Option (List Group)) : SessionStore :=
  ⟨fun w => if w == windowId then some (ensureUngroupedGroupExists now groups)
            else st.groupsOf w⟩

/-! ## utils.js -/

/-- JavaScript's `%` operator on integers (remainder truncated toward zero). -/
def jsRem (x n : Int) : Int := x.tmod n

/-- Function `mod` from utils.js: the expression `((x % n) + n) % n`, a mathematical modulo. -/
def mod (x n : Int) : Int := jsRem (jsRem x n + n) n

/-- Function `getLowestPositiveGroupId` from utils.js: the least id `≥ 0` among the
groups (the sort-ascending-take-first of the source), `undefined` when the
array is missing, empty, or has no such id. -/
def getLowestPositiveGroupId (groups : Option (List Group)) : Option Int :=
  match groups with
  | none => none
  | some gs =>
    if gs.length == 0 then none
    else
      let positiveIds :=
        (((gs.map (fun g => g.id)).filter (fun id => id ≥ 0)).mergeSort
          (fun a b => a ≤ b))
      positiveIds.head?

/-! ## Tabs as seen through the host API -/

/-- The value of `browser.runtime.getURL` for view.html, the URL of the overview tab. -/
def viewUrl : String := "moz-extension://panorama/view.html"

/-- A browser tab as returned by `browser.tabs.query`. -/
structure WTab where
  id : Int
  windowId : Int
  url : String
  pendingUrl : String
  pinned : Bool
deriving DecidableEq, Repr

/-- An enriched tab (`enrichTab` / `enrichTabForGrouping`): the tab together
with its persisted panorama group (possibly `undefined`) and derived flags. -/
structure EnrichedTab where
  tabId : Int
  windowId : Int
  panoramaGroupId : Option Int
  isPanoramaView : Bool
  isUngrouped : Bool
deriving DecidableEq, Repr

/-- Function `enrichTabForGrouping` from background.js (`enrichTab` of native-groups.js
computes the same fields minus `isUngrouped`): `storedGroup` is the value of
`stateManager.getTabGroup(tab.id)`. -/
def enrichTabForGrouping (tab : WTab) (storedGroup : Option Int) : EnrichedTab :=
  { tabId := tab.id
    windowId := tab.windowId
    panoramaGroupId := storedGroup
    isPanoramaView := storedGroup == some PANORAMA_VIEW_GROUP_ID
    isUngrouped := storedGroup == some UNGROUPED_GROUP_ID }

/-- The window's tabs that are not the panorama view page
(`allWindowTabs.filter(t => t.url !== viewUrl && t.pendingUrl !== viewUrl)`). -/
def nonPanoramaTabs (allWindowTabs : List WTab) : List WTab :=
  allWindowTabs.filter (fun t => t.url != viewUrl && t.pendingUrl != viewUrl)

/-- Cardinality of the JavaScript `new Set(...)` built from a list. -/
def distinctCount {α : Type} [DecidableEq α] (l : List α) : Nat :=
  l.dedup.length

/-! ## Safety checks before native grouping -/

/-- Function `canSafelyGroupTabs` from native-groups.js (migration path).
`windowExists` models whether `browser.windows.get(windowId)` succeeds;
`allWindowTabs` is the result of `browser.tabs.query({windowId})`. -/
def canSafelyGroupTabs (enrichedTabs : List EnrichedTab) (windowExists : Bool)
    (allWindowTabs : List WTab) : Bool :=
  if !windowExists then false
  else
    let nonPanorama := nonPanoramaTabs allWindowTabs
    if enrichedTabs.length ≥ 1 && enrichedTabs.length == nonPanorama.length then
      false
    else if nonPanorama.length == 0 then false
    else true

/-- Function `validateTabsForGrouping` from native-groups.js, `true` when no branch
throws. -/
def validateTabsForGrouping (enrichedTabs : List EnrichedTab) : Bool :=
  if enrichedTabs.length == 0 then false
  else if distinctCount (enrichedTabs.map (fun t => t.windowId)) > 1 then false
  else if distinctCount (enrichedTabs.map (fun t => t.panoramaGroupId)) > 1 then
    false
  else if enrichedTabs.any (fun t => t.isPanoramaView) then false
  else true

/-- Function `validateAndCheckSafety` from background.js (tab-created / tab-activated
paths); returns the `safe` field of the result object. -/
def validateAndCheckSafety (enrichedTabs : List EnrichedTab)
    (windowExists : Bool) (panoramaGroupId : Int)
    (allWindowTabs : List WTab) : Bool :=
  if enrichedTabs.length == 0 then false
  else if !windowExists then false
  else if distinctCount (enrichedTabs.map (fun t => t.windowId)) > 1 then false
  else if distinctCount (enrichedTabs.map (fun t => t.panoramaGroupId)) > 1
      || !((enrichedTabs.map (fun t => t.panoramaGroupId)).contains
            (some panoramaGroupId)) then false
  else
    let nonPanorama := nonPanoramaTabs allWindowTabs
    if enrichedTabs.length == nonPanorama.length && nonPanorama.length == 1 then
      false
    else true

/-- The condition under which the tab-created handler reaches
`browser.tabs.group` when materializing a missing native group:
the candidate set is non-empty, `validateAndCheckSafety` reported safe, and
the re-checked `browser.windows.get` (modelled by `windowExistsRecheck`)
still succeeds. -/
def tabCreatedIssuesGroupCall (groupTabs : List EnrichedTab)
    (windowExists windowExistsRecheck : Bool) (panoramaGroupId : Int)
    (allWindowTabs : List WTab) : Bool :=
  groupTabs.length > 0
    && validateAndCheckSafety groupTabs windowExists panoramaGroupId
        allWindowTabs
    && windowExistsRecheck

/-! ## Host calls -/

/-- Host operations issued by the engine, recorded as a trace. -/
inductive HostCall where
  | hideTabs (tabIds : List Int)
  | showTabs (tabIds : List Int)
  | collapseGroup (nativeGroupId : Int)
  | uncollapseGroup (nativeGroupId : Int)
  | groupTabsCall (tabIds : List Int)
  | addToNativeGroup (tabId : Int) (nativeGroupId : Int)
  | ungroupTabs (tabIds : List Int)
  | updateNativeGroup (nativeGroupId : Int)
  | getNativeGroup (nativeGroupId : Int)
  | focusTab (tabId : Int)
  | removeTab (tabId : Int)
  | removeMenu (groupId : Int)
  | setActionTitleCall (windowId : Int)
deriving DecidableEq, Repr

/-- The hide/show and collapse/expand visibility calls of the claim. -/
def HostCall.isVisibilityCall : HostCall → Bool
  | .hideTabs _ => true
  | .showTabs _ => true
  | .collapseGroup _ => true
  | .uncollapseGroup _ => true
  | _ => false

/-- The host grouping call (`browser.tabs.group` creating a native group). -/
def HostCall.isGroupingCall : HostCall → Bool
  | .groupTabsCall _ => true
  | _ => false

/-! ## toggleVisibleTabs (Visibility Controller) -/

/-- A tab as consumed by `toggleVisibleTabs`: `storedGroupId` is its persisted
panorama group (`undefined` when unassigned). -/
structure TabView where
  id : Int
  pinned : Bool
  lastAccessed : Int
  storedGroupId : Option Int
deriving DecidableEq, Repr

/-- The show/hide partition loop of `toggleVisibleTabs`, for a numeric desired
active group `q`: returns `(showTabIds, hideTabIds, showTabs)`.  Pinned tabs
are skipped; a tab assigned to the overview group (-1) is shown only when the
overview itself is the target; an unassigned tab is hidden (in the source,
`undefined !== activeGroup` holds for every number). -/
def partitionTabs (q : ℚ) : List TabView → List Int × List Int × List TabView
  | [] => ([], [], [])
  | t :: rest =>
    let r := partitionTabs q rest
    if t.pinned then r
    else
      match t.storedGroupId with
      | some g =>
        if g == PANORAMA_VIEW_GROUP_ID then
          if q == -1 then (t.id :: r.1, r.2.1, t :: r.2.2)
          else (r.1, t.id :: r.2.1, r.2.2)
        else
          if (g : ℚ) == q then (t.id :: r.1, r.2.1, t :: r.2.2)
          else (r.1, t.id :: r.2.1, r.2.2)
      | none => (r.1, t.id :: r.2.1, r.2.2)

/-- The most recently used tab of the show set
(`showTabs.sort((a, b) => b.lastAccessed - a.lastAccessed)[0]`). -/
def mruTabId (showTabs : List TabView) : Int :=
  (((showTabs.mergeSort (fun a b => b.lastAccessed ≤ a.lastAccessed)).head?).map
    (fun t => t.id)).getD 0

/-- The trace of host calls issued once `toggleVisibleTabs` has passed its
safety gates: optional focus fallback, then collapse-losers / hide / show /
uncollapse-winner / status refresh, in source order. -/
def toggleMainTrace (q : ℚ) (noTabSelected : Bool)
    (showTabIds hideTabIds : List Int) (showTabs : List TabView)
    (groups : Option (List Group)) (hasTabHide useNativeGroups : Bool) :
    List HostCall :=
  let focusCalls := if noTabSelected then [HostCall.focusTab (mruTabId showTabs)]
    else []
  let collapseCalls :=
    if !hideTabIds.isEmpty && useNativeGroups then
      match groups with
      | some gs =>
        (gs.filter (fun g => g.nativeGroupId.truthy && (g.id : ℚ) != q)).map
          (fun g => HostCall.collapseGroup g.nativeGroupId.refId)
      | none => []
    else []
  let hideCalls :=
    if !hideTabIds.isEmpty && hasTabHide then [HostCall.hideTabs hideTabIds]
    else []
  let showCalls :=
    if !showTabIds.isEmpty && hasTabHide then [HostCall.showTabs showTabIds]
    else []
  let uncollapseCalls :=
    if !showTabIds.isEmpty && useNativeGroups then
      match groups with
      | some gs =>
        match gs.find? (fun g => (g.id : ℚ) == q) with
        | some g =>
          if g.nativeGroupId.truthy then
            [HostCall.uncollapseGroup g.nativeGroupId.refId]
          else []
        | none => []
      | none => []
    else []
  let titleCalls := if q ≥ 0 then [HostCall.setActionTitleCall 0] else []
  focusCalls ++ collapseCalls ++ hideCalls ++ showCalls ++ uncollapseCalls
    ++ titleCalls

/-- Function `toggleVisibleTabs` from background.js, as the trace of host calls it
issues.  The source's `DEBUG` constant is `true`, so the empty-show-set abort
is active.  When `noTabSelected` is set with an empty show set the source
dereferences `showTabs[0].id` of `undefined` and throws, issuing no host
call, which the model renders as the empty trace. -/
def toggleVisibleTabs (activeGroup : Option ℚ) (noTabSelected : Bool)
    (tabs : List TabView) (groups : Option (List Group))
    (hasTabHide useNativeGroups : Bool) : List HostCall :=
  match activeGroup with
  | none => []
  | some q =>
    if q != (PANORAMA_VIEW_GROUP_ID : ℚ) && (q < 0 || q.den != 1) then []
    else
      let parts := partitionTabs q tabs
      if parts.1.isEmpty && !parts.2.1.isEmpty then []
      else if noTabSelected && parts.2.2.isEmpty then []
      else
        toggleMainTrace q noTabSelected parts.1 parts.2.1 parts.2.2 groups
          hasTabHide useNativeGroups

/-! ## Window registry state and lifecycle handlers -/

/-- Per-window registry state: the persisted `groups`, `activeGroup` and
`groupIndex` session values. -/
structure WindowState where
  groups : Option (List Group)
  activeGroup : JsOpt
  groupIndex : Option Int
deriving DecidableEq, Repr

/-- Update the first element satisfying `p` (a JavaScript `find` followed by
mutation of the returned reference inside the array). -/
def updateFirst {α : Type} (p : α → Bool) (f : α → α) : List α → List α
  | [] => []
  | a :: rest => if p a then f a :: rest else a :: updateFirst p f rest

/-- The group-assignment slice of `tabCreated` for a non-overview tab:
resolve the group of a new tab from the window's active pointer, falling back
to the lowest non-negative existing group id and then to `0` when the pointer
is `undefined` or `null`.  Returns the updated window state and the tab's
persisted assignment. -/
def tabCreatedAssignGroup (st : WindowState) (tabAssignment : Option Int) :
    WindowState × Option Int :=
  match tabAssignment with
  | some _ => (st, tabAssignment)
  | none =>
    match st.activeGroup with
    | .val a => (st, some a)
    | _ =>
      let fallback := (getLowestPositiveGroupId st.groups).getD 0
      ({ st with activeGroup := .val fallback }, some fallback)

/-- The registry effect of `tabActivated` on a window's persisted state.
Parameters model the host responses: `nativeGroupsWithTabs` is the
native-group/tab-membership snapshot built from `tabGroups.query` and
`tabs.query({groupId})`, `windowExists` the success of `windows.get`,
`freshNativeId` the id returned by `tabs.group`, and `createdInWindow` the
`windowId` that `tabGroups.get` reports for the created group. -/
def tabActivatedEffect (now : Int) (st : WindowState) (tab : WTab)
    (storedTabGroup : Option Int) (useNativeGroups : Bool)
    (nativeGroupsWithTabs : List (Int × List Int))
    (enrichedTabs : List EnrichedTab) (windowExists : Bool)
    (allWindowTabs : List WTab) (freshNativeId : Int)
    (createdInWindow : Int) : WindowState :=
  if tab.pinned then st
  else
    match storedTabGroup with
    | none => st
    | some g =>
      if g == PANORAMA_VIEW_GROUP_ID then st
      else
        let st1 := { st with activeGroup := .val g }
        if !useNativeGroups then st1
        else
          let gs := st.groups.getD []
          match gs.find? (fun gr => gr.id == g) with
          | none => st1
          | some cg =>
            let existing :=
              nativeGroupsWithTabs.find? (fun p => p.2.contains tab.id)
            if !cg.nativeGroupId.truthy && existing == none then
              let groupTabs := enrichedTabs.filter (fun t =>
                t.panoramaGroupId == some g && !t.isPanoramaView)
              if groupTabs.length > 0 then
                if !(validateAndCheckSafety groupTabs windowExists g
                    allWindowTabs) then st1
                else if !windowExists then st1
                else if createdInWindow != tab.windowId then st1
                else
                  { st1 with groups := some (ensureUngroupedGroupExists now
                      (some (updateFirst (fun gr => gr.id == g)
                        (fun gr => { gr with nativeGroupId := .ref freshNativeId })
                        gs))) }
              else st1
            else if !cg.nativeGroupId.truthy then
              match existing with
              | some e =>
                { st1 with groups := some (ensureUngroupedGroupExists now
                    (some (updateFirst (fun gr => gr.id == g)
                      (fun gr => { gr with nativeGroupId := .ref e.1 }) gs))) }
              | none => st1
            else st1

/-- The Boolean rendering of the spec invariant "`nativeGroupId` is non-null
only while that group is the window's active group" on a window state. -/
def nativeOnlyOnActiveGroup (st : WindowState) : Bool :=
  (st.groups.getD []).all (fun g =>
    g.id == UNGROUPED_GROUP_ID || !g.nativeGroupId.present
      || st.activeGroup == .val g.id)

/-! ## Group creation and deletion -/

/-- Function `createGroupInWindow` from background.js: allocate an id from the
`groupIndex` counter, persist a single fresh group (the ungrouped
pseudo-group is appended by `setGroups`), and set the active group to the
lowest non-negative id of the persisted array. -/
def createGroupInWindow (now : Int) (defaultName : String) (st : WindowState) :
    WindowState :=
  let uid := st.groupIndex.getD 0
  let newGroup : Group :=
    { id := uid
      name := defaultName ++ toString uid
      containerId := "browser-default"
      nativeGroupId := .nullRef
      rect := ⟨0, 0, 1/2, 1/2⟩
      lastMoved := now
      isSystemGroup := none }
  let stored := ensureUngroupedGroupExists now (some [newGroup])
  { groups := some stored
    activeGroup := .val ((getLowestPositiveGroupId (some stored)).getD uid)
    groupIndex := some (uid + 1) }

/-- The fields of a `deleteGroup` request message. -/
structure DeleteParams where
  groupId : Int
  nativeGroupId : NativeRef
  tabIds : List Int
deriving DecidableEq, Repr

/-- Function `deleteGroupWithCleanup` from background.js.  Here `existingTabs` pairs each
still-open tab id with its current native group id (for the ungroup
verification of step 1).  Returns the new window state, whether
`createGroupInWindow` ran, and the host-call trace.  Note that in the source
`ensureUngroupedGroupExists` pushes into the very array passed to
`setGroups`, so the `leftGroups.length === 0` test observes the repaired
array. -/
def deleteGroupWithCleanup (now : Int) (defaultName : String)
    (hasTabGroupsApi : Bool) (existingTabs : List (Int × Int))
    (p : DeleteParams) (st : WindowState) :
    WindowState × Bool × List HostCall :=
  let ungroupTrace :=
    if hasTabGroupsApi && p.nativeGroupId.present then
      let tabsToUngroup := p.tabIds.filter (fun tid =>
        existingTabs.any (fun et => et.1 == tid && et.2 == p.nativeGroupId.refId))
      if tabsToUngroup.length > 0 then [HostCall.ungroupTabs tabsToUngroup]
      else []
    else []
  let removeTrace := p.tabIds.map HostCall.removeTab
  let menuTrace := [HostCall.removeMenu p.groupId]
  match st.groups with
  | none => (st, false, ungroupTrace ++ removeTrace ++ menuTrace)
  | some gs =>
    let leftGroups := gs.filter (fun g => g.id != p.groupId)
    let repaired := ensureUngroupedGroupExists now (some leftGroups)
    let st1 := { st with groups := some repaired }
    if repaired.length == 0 then
      (createGroupInWindow now defaultName st1, true,
        ungroupTrace ++ removeTrace ++ menuTrace)
    else (st1, false, ungroupTrace ++ removeTrace ++ menuTrace)

/-! ## changeActiveGroupBy -/

/-- Function `changeActiveGroupBy`: shift the active group by `offset`, wrapping with
`mod`; returns the id of the selected group (`none` when the index misses,
which for the source means a crash on `groups[...]` of `undefined`). -/
def changeActiveGroupBy (groups : List Group) (activeGroup : Option Int)
    (offset : Int) : Option Int :=
  let activeIndex : Int :=
    match groups.findIdx? (fun g => some g.id == activeGroup) with
    | some i => (i : Int)
    | none => -1
  let newIndex := activeIndex + offset
  (groups.get? (mod newIndex (groups.length : Int)).toNat).map (fun g => g.id)

/-! ## Migration to hybrid groups (native-groups.js) -/

/-- Host environment of one window during migration: `validNativeIds` are the
native-group ids for which `browser.tabGroups.get` succeeds, `freshNativeId`
the id `browser.tabs.group` returns, and `createdInWindow` the window the
host reports for the created group. -/
structure MigrationWindowEnv where
  windowId : Int
  windowExists : Bool
  allWindowTabs : List WTab
  enrichedTabs : List EnrichedTab
  activeGroup : JsOpt
  validNativeIds : List Int
  freshNativeId : Int
  createdInWindow : Int
deriving Repr

/-- The per-group body of `migrateWindowGroups`: verify an existing native
reference (skip when valid, clear when stale), then materialize a native
group only for the window's active group after the safety checks; a
window-mismatch on the created group rolls back with `ungroup`.  A
cross-window mismatch additionally drops the window's session values in the
source; the registry write that follows in `migrateWindowGroups`
re-persists the groups regardless, so the model keeps the group record. -/
def migrateOneGroup (env : MigrationWindowEnv) (group : Group) :
    Group × List HostCall :=
  if group.nativeGroupId.present
      && env.validNativeIds.contains group.nativeGroupId.refId then
    (group, [HostCall.getNativeGroup group.nativeGroupId.refId])
  else
    let group0 :=
      if group.nativeGroupId.present then { group with nativeGroupId := .absent }
      else group
    let trace0 :=
      if group.nativeGroupId.present then
        [HostCall.getNativeGroup group.nativeGroupId.refId]
      else ([] : List HostCall)
    let groupTabs := env.enrichedTabs.filter (fun t =>
      t.panoramaGroupId == some group.id && t.windowId == env.windowId
        && !t.isPanoramaView)
    if groupTabs.length == 0 then (group0, trace0)
    else if env.activeGroup == JsOpt.val group.id then
      if !canSafelyGroupTabs groupTabs env.windowExists env.allWindowTabs then
        (group0, trace0)
      else if !validateTabsForGrouping groupTabs then (group0, trace0)
      else if !env.windowExists then (group0, trace0)
      else
        let tabIds := groupTabs.map (fun t => t.tabId)
        let newId := env.freshNativeId
        if env.createdInWindow != env.windowId then
          (group0, trace0 ++ [HostCall.groupTabsCall tabIds,
            HostCall.getNativeGroup newId, HostCall.ungroupTabs tabIds])
        else
          ({ group0 with nativeGroupId := .ref newId },
           trace0 ++ [HostCall.groupTabsCall tabIds,
             HostCall.getNativeGroup newId, HostCall.updateNativeGroup newId])
    else (group0, trace0)

/-- Function `migrateWindowGroups`: map the per-group migration over the window's
stored groups and persist the result (a missing or empty array is left
untouched and issues no calls). -/
def migrateWindowGroups (now : Int) (env : MigrationWindowEnv)
    (stored : Option (List Group)) : Option (List Group) × List HostCall :=
  match stored with
  | none => (none, [])
  | some gs =>
    if gs.length == 0 then (some gs, [])
    else
      let results := gs.map (migrateOneGroup env)
      (some (ensureUngroupedGroupExists now
          (some (results.map (fun r => r.1)))),
       (results.map (fun r => r.2)).flatten)

/-- Function `verifyNativeGroupPersistence` for one window: re-read every stored
native reference; a stale reference is cleared by re-persisting the
original array with that group's `nativeGroupId` set to `null`.  The
source fires these writes concurrently from the same snapshot, so with
several stale references the completing write is the last one; the model
takes the last stale group in array order. -/
def verifyWindowGroups (now : Int) (validNativeIds : List Int)
    (stored : Option (List Group)) : Option (List Group) × List HostCall :=
  match stored with
  | none => (none, [])
  | some gs =>
    let reads := (gs.filter (fun g => g.nativeGroupId.present)).map
      (fun g => HostCall.getNativeGroup g.nativeGroupId.refId)
    let broken := gs.filter (fun g =>
      g.nativeGroupId.present && !validNativeIds.contains g.nativeGroupId.refId)
    match broken.getLast? with
    | none => (some gs, reads)
    | some b =>
      (some (ensureUngroupedGroupExists now (some (gs.map (fun g =>
          if g.id == b.id then { g with nativeGroupId := .nullRef } else g)))),
       reads)

/-- Durable migration state: the `hybridGroupsMigrationComplete` flag and the
per-window environments with their stored groups. -/
structure MigrationState where
  migrationComplete : Bool
  windows : List (MigrationWindowEnv × Option (List Group))

/-- Function `migrateToHybridGroups`: skip without the tabGroups API; early-return when
the durable completion flag is set; otherwise migrate every window, set the
flag, and run the verification sub-pass. -/
def migrateToHybridGroups (hasTabGroupsApi : Bool) (now : Int)
    (st : MigrationState) : MigrationState × List HostCall :=
  if !hasTabGroupsApi then (st, [])
  else if st.migrationComplete then (st, [])
  else
    let migrated := st.windows.map (fun p =>
      (p.1, migrateWindowGroups now p.1 p.2))
    let verified := migrated.map (fun p =>
      (p.1, verifyWindowGroups now p.1.validNativeIds p.2.1))
    ({ migrationComplete := true
       windows := verified.map (fun p => (p.1, p.2.1)) },
     (migrated.map (fun p => p.2.2)).flatten
       ++ (verified.map (fun p => p.2.2)).flatten)

/-! ## Teardown (cleanupNativeGroups) -/

/-- The `nativeGroupId`-stripping map of `cleanupNativeGroups`: rest-
destructuring removes the property when it is neither `undefined` nor
`null`. -/
def stripNativeGroupId (g : Group) : Group :=
  if g.nativeGroupId.present then { g with nativeGroupId := .absent } else g

/-- The per-window registry effect of `cleanupNativeGroups`: strip every
native reference and re-persist through `setGroups`. -/
def cleanupWindowGroups (now : Int) (gs : List Group) : List Group :=
  ensureUngroupedGroupExists now (some (gs.map stripNativeGroupId))

/-- Durable state acted on by teardown: per-window stored groups and the
migration-complete flag. -/
structure CleanupState where
  windows : List (Int × Option (List Group))
  migrationComplete : Bool

/-- Function `cleanupNativeGroups`: for every window strip all `nativeGroupId`
references (windows without a stored array are skipped), then reset the
durable migration flag so re-enabling triggers a fresh migration. -/
def cleanupNativeGroups (now : Int) (st : CleanupState) : CleanupState :=
  { windows := st.windows.map (fun p =>
      (p.1, match p.2 with
        | none => none
        | some gs => some (cleanupWindowGroups now gs)))
    migrationComplete := false }

/-- A window's stored groups have a canonical ungrouped entry: the first
group with id -2 carries the enforced name, system mark, and `null` native
reference.  Every array written through `setGroups` satisfies this. -/
def ungroupedCanonical (gs : List Group) : Bool :=
  match gs.find? (fun g => g.id == UNGROUPED_GROUP_ID) with
  | some g =>
    g.name == UNGROUPED_GROUP_NAME && g.isSystemGroup == some true
      && g.nativeGroupId == NativeRef.nullRef
  | none => false

/-! ## Theorems -/

/-- A truncated remainder by a positive divisor is strictly above `-n`. -/
theorem neg_lt_tmod (x : Int) {n : Int} (hn : 0 < n) : -n < x.tmod n := by
  cases x with
  | ofNat m =>
    have h0 : (0 : Int) ≤ (Int.ofNat m).tmod n :=
      Int.tmod_nonneg n (Int.ofNat_nonneg m)
    omega
  | negSucc m =>
    cases n with
    | ofNat k =>
      have hk : 0 < k := Int.ofNat_lt.mp hn
      have hlt : (m + 1) % k < k := Nat.mod_lt _ hk
      have hcast : Int.ofNat ((m + 1) % k) < Int.ofNat k := Int.ofNat_lt.mpr hlt
      show -(Int.ofNat k) < -(Int.ofNat ((m + 1) % k))
      omega
    | negSucc k => exact absurd hn (asymm (Int.negSucc_lt_zero k))

/-- Range of `mod` for a positive divisor. -/
theorem mod_nonneg_lt (x : Int) {n : Int} (hn : 0 < n) :
    0 ≤ mod x n ∧ mod x n < n := by
  have h1 : x.tmod n < n := Int.tmod_lt_of_pos x hn
  have h2 : -n < x.tmod n := neg_lt_tmod x hn
  have h3 : (0 : Int) ≤ x.tmod n + n := by omega
  refine ⟨Int.tmod_nonneg n h3, Int.tmod_lt_of_pos _ hn⟩

/-- The value `mod x n` is congruent to `x` modulo `n` (for a positive divisor). -/
theorem mod_congruent (x : Int) {n : Int} (hn : 0 < n) :
    mod x n % n = x % n := by
  have h1 : x.tmod n < n := Int.tmod_lt_of_pos x hn
  have h2 : -n < x.tmod n := neg_lt_tmod x hn
  have h3 : (0 : Int) ≤ x.tmod n + n := by omega
  have h4 : mod x n = (x.tmod n + n) % n :=
    Int.tmod_eq_emod h3 (le_of_lt hn)
  have h5 : x.tmod n = x - n * x.tdiv n := Int.tmod_def x n
  have h6 : x.tmod n + n = x + n * (1 - x.tdiv n) := by rw [h5]; ring
  rw [h4, h6, Int.add_mul_emod_self_left, Int.emod_emod_of_dvd x dvd_rfl]

/-- Indexing any non-empty list at `mod i length` hits an element. -/
theorem get?_mod_mem (groups : List Group) (i : Int) (hg : groups ≠ []) :
    ∃ g ∈ groups, groups.get? (mod i (groups.length : Int)).toNat = some g := by
  have hlen : (0 : Int) < (groups.length : Int) := by
    have := List.length_pos.mpr hg
    exact_mod_cast this
  obtain ⟨h0, h1⟩ := mod_nonneg_lt i hlen
  have hk : (mod i (groups.length : Int)).toNat < groups.length := by omega
  exact ⟨groups.get ⟨_, hk⟩, List.get_mem _ _ _, List.get?_eq_get hk⟩

/-- Function `changeActiveGroupBy` always selects an existing group of a non-empty
registry. -/
theorem changeActiveGroupBy_mem (groups : List Group)
    (activeGroup : Option Int) (offset : Int) (hg : groups ≠ []) :
    ∃ g ∈ groups, changeActiveGroupBy groups activeGroup offset = some g.id := by
  obtain ⟨g, hmem, hget⟩ := get?_mod_mem groups
    ((match groups.findIdx? (fun g => some g.id == activeGroup) with
      | some i => (i : Int)
      | none => -1) + offset) hg
  refine ⟨g, hmem, ?_⟩
  simp only [changeActiveGroupBy]
  rw [hget]
  rfl

/-- C10: `mod` is a mathematical modulo — for every `x` and every `n > 0` it
returns `r` with `0 ≤ r < n` and `r ≡ x (mod n)`, also for negative `x` —
and consequently `changeActiveGroupBy` always indexes an existing element of
any non-empty groups array when wrapping the active-group selection. -/
theorem mod_spec_and_changeActiveGroupBy_total (x n : Int) (hn : 0 < n)
    (groups : List Group) (activeGroup : Option Int) (offset : Int)
    (hg : groups ≠ []) :
    (0 ≤ mod x n ∧ mod x n < n ∧ mod x n % n = x % n) ∧
    ∃ g ∈ groups, changeActiveGroupBy groups activeGroup offset = some g.id :=
  ⟨⟨(mod_nonneg_lt x hn).1, (mod_nonneg_lt x hn).2, mod_congruent x hn⟩,
   changeActiveGroupBy_mem groups activeGroup offset hg⟩

/-- Witness for C10 at `x = -7`, `n = 3`, a one-element registry and
offset `-2`. -/
theorem mod_spec_and_changeActiveGroupBy_total_witness :
    (0 ≤ mod (-7) 3 ∧ mod (-7) 3 < 3 ∧ mod (-7) 3 % 3 = -7 % 3) ∧
    ∃ g ∈ [defaultUngroupedGroup 0],
      changeActiveGroupBy [defaultUngroupedGroup 0] none (-2) = some g.id :=
  mod_spec_and_changeActiveGroupBy_total (-7) 3 (by decide)
    [defaultUngroupedGroup 0] none (-2) (by simp)

/-- An invalid numeric desired id (neither the overview id nor a
non-negative integer) makes `toggleVisibleTabs` return the empty trace. -/
theorem toggleVisibleTabs_invalid_eq_nil (q : ℚ) (noTabSelected : Bool)
    (tabs : List TabView) (groups : Option (List Group))
    (hasTabHide useNativeGroups : Bool)
    (h1 : q ≠ -1) (h2 : q < 0 ∨ q.den ≠ 1) :
    toggleVisibleTabs (some q) noTabSelected tabs groups hasTabHide
      useNativeGroups = [] := by
  have hb : (q != ((PANORAMA_VIEW_GROUP_ID : Int) : ℚ)
      && (decide (q < 0) || q.den != 1)) = true := by
    have hcast : ((PANORAMA_VIEW_GROUP_ID : Int) : ℚ) = -1 := by
      simp [PANORAMA_VIEW_GROUP_ID]
    rcases h2 with h2 | h2 <;>
      simp [hcast, bne_iff_ne, h1, h2]
  simp only [toggleVisibleTabs]
  rw [if_pos hb]

/-- An empty show set with a non-empty hide set makes `toggleVisibleTabs`
return the empty trace (the `DEBUG` abort in the source). -/
theorem toggleVisibleTabs_emptyShow_eq_nil (q : ℚ) (noTabSelected : Bool)
    (tabs : List TabView) (groups : Option (List Group))
    (hasTabHide useNativeGroups : Bool)
    (hshow : (partitionTabs q tabs).1 = [])
    (hhide : (partitionTabs q tabs).2.1 ≠ []) :
    toggleVisibleTabs (some q) noTabSelected tabs groups hasTabHide
      useNativeGroups = [] := by
  simp only [toggleVisibleTabs]
  by_cases hb : (q != ((PANORAMA_VIEW_GROUP_ID : Int) : ℚ)
      && (decide (q < 0) || q.den != 1)) = true
  · rw [if_pos hb]
  · rw [if_neg hb, if_pos]
    simp [hshow, List.isEmpty_iff, hhide]

/-- C2: every invocation of the visibility toggle with an undefined desired
id, a numeric id that is neither reserved nor a non-negative integer, or a
computed empty show-set facing a non-empty hide-set, returns without issuing
any hide/show or collapse/expand host call. -/
theorem toggleVisibleTabs_safety_gate (activeGroup : Option ℚ)
    (noTabSelected : Bool) (tabs : List TabView)
    (groups : Option (List Group)) (hasTabHide useNativeGroups : Bool)
    (h : activeGroup = none
      ∨ (∃ q, activeGroup = some q ∧ ¬(q = -1 ∨ q = -2)
          ∧ ¬(0 ≤ q ∧ q.den = 1))
      ∨ (∃ q, activeGroup = some q ∧ (partitionTabs q tabs).1 = []
          ∧ (partitionTabs q tabs).2.1 ≠ [])) :
    (toggleVisibleTabs activeGroup noTabSelected tabs groups hasTabHide
        useNativeGroups).all (fun c => !c.isVisibilityCall) = true := by
  have hnil : toggleVisibleTabs activeGroup noTabSelected tabs groups
      hasTabHide useNativeGroups = [] := by
    rcases h with h | ⟨q, rfl, hres, hint⟩ | ⟨q, rfl, hshow, hhide⟩
    · rw [h]; rfl
    · have hq1 : q ≠ -1 := fun hq => hres (Or.inl hq)
      have hq2 : q < 0 ∨ q.den ≠ 1 := by
        by_cases h0 : 0 ≤ q
        · exact Or.inr fun hd => hint ⟨h0, hd⟩
        · exact Or.inl (lt_of_not_le h0)
      exact toggleVisibleTabs_invalid_eq_nil q noTabSelected tabs groups
        hasTabHide useNativeGroups hq1 hq2
    · exact toggleVisibleTabs_emptyShow_eq_nil q noTabSelected tabs groups
        hasTabHide useNativeGroups hshow hhide
  rw [hnil]
  rfl

/-- Witness for C2: the desired id `-5` (not reserved, negative) aborts the
toggle with no visibility host call. -/
theorem toggleVisibleTabs_safety_gate_witness :
    (toggleVisibleTabs (some (-5)) false
        [⟨1, false, 0, some 0⟩] (some [defaultUngroupedGroup 0]) true
        true).all (fun c => !c.isVisibilityCall) = true :=
  toggleVisibleTabs_safety_gate (some (-5)) false
    [⟨1, false, 0, some 0⟩] (some [defaultUngroupedGroup 0]) true true
    (Or.inr (Or.inl ⟨-5, rfl, by norm_num, by norm_num⟩))

/-- Collapse calls among host calls. -/
def HostCall.isCollapse : HostCall → Prop
  | .collapseGroup _ => True
  | _ => False

/-- Hide calls among host calls. -/
def HostCall.isHide : HostCall → Prop
  | .hideTabs _ => True
  | _ => False

/-- Show calls among host calls. -/
def HostCall.isShow : HostCall → Prop
  | .showTabs _ => True
  | _ => False

/-- Uncollapse calls among host calls. -/
def HostCall.isUncollapse : HostCall → Prop
  | .uncollapseGroup _ => True
  | _ => False

/-- In a concatenation whose second part has no `P`-element and whose first
part has no `Q`-element, every `P`-position precedes every `Q`-position. -/
theorem index_lt_of_split {α : Type} (xs ys : List α) (P Q : α → Prop)
    (hx : ∀ a ∈ ys, ¬ P a) (hy : ∀ a ∈ xs, ¬ Q a) :
    ∀ i j a b, (xs ++ ys).get? i = some a → P a →
      (xs ++ ys).get? j = some b → Q b → i < j := by
  intro i j a b hia hPa hjb hQb
  have hi : i < xs.length := by
    by_contra hge
    push_neg at hge
    rw [List.get?_append_right hge] at hia
    exact hx a (List.get?_mem hia) hPa
  have hj : xs.length ≤ j := by
    by_contra hlt
    push_neg at hlt
    rw [List.get?_append hlt] at hjb
    exact hy b (List.get?_mem hjb) hQb
  omega

/-- Segment-shape version of the visibility-toggle ordering: in a trace of
the form focus / collapses / hides / shows / uncollapses / title, collapse
calls precede hide calls and show calls precede uncollapse calls. -/
theorem trace_segment_ordering (F C H S U T : List HostCall)
    (hF : ∀ a ∈ F, ∃ t, a = HostCall.focusTab t)
    (hC : ∀ a ∈ C, ∃ n, a = HostCall.collapseGroup n)
    (hH : ∀ a ∈ H, ∃ l, a = HostCall.hideTabs l)
    (hS : ∀ a ∈ S, ∃ l, a = HostCall.showTabs l)
    (hU : ∀ a ∈ U, ∃ n, a = HostCall.uncollapseGroup n)
    (hT : ∀ a ∈ T, ∃ w, a = HostCall.setActionTitleCall w) :
    (∀ i j a b, (F ++ C ++ H ++ S ++ U ++ T).get? i = some a →
      a.isCollapse → (F ++ C ++ H ++ S ++ U ++ T).get? j = some b →
      b.isHide → i < j) ∧
    (∀ i j a b, (F ++ C ++ H ++ S ++ U ++ T).get? i = some a →
      a.isShow → (F ++ C ++ H ++ S ++ U ++ T).get? j = some b →
      b.isUncollapse → i < j) := by
  constructor
  · have hsplit : F ++ C ++ H ++ S ++ U ++ T
        = (F ++ C) ++ (H ++ S ++ U ++ T) := by
      simp [List.append_assoc]
    rw [hsplit]
    apply index_lt_of_split
    · intro a ha
      rcases List.mem_append.mp ha with ha | ha
      · rcases List.mem_append.mp ha with ha | ha
        · rcases List.mem_append.mp ha with ha | ha
          · obtain ⟨l, rfl⟩ := hH a ha
            simp [HostCall.isCollapse]
          · obtain ⟨l, rfl⟩ := hS a ha
            simp [HostCall.isCollapse]
        · obtain ⟨n, rfl⟩ := hU a ha
          simp [HostCall.isCollapse]
      · obtain ⟨w, rfl⟩ := hT a ha
        simp [HostCall.isCollapse]
    · intro a ha
      rcases List.mem_append.mp ha with ha | ha
      · obtain ⟨t, rfl⟩ := hF a ha
        simp [HostCall.isHide]
      · obtain ⟨n, rfl⟩ := hC a ha
        simp [HostCall.isHide]
  · have hsplit : F ++ C ++ H ++ S ++ U ++ T
        = (F ++ C ++ H ++ S) ++ (U ++ T) := by
      simp [List.append_assoc]
    rw [hsplit]
    apply index_lt_of_split
    · intro a ha
      rcases List.mem_append.mp ha with ha | ha
      · obtain ⟨n, rfl⟩ := hU a ha
        simp [HostCall.isShow]
      · obtain ⟨w, rfl⟩ := hT a ha
        simp [HostCall.isShow]
    · intro a ha
      rcases List.mem_append.mp ha with ha | ha
      · rcases List.mem_append.mp ha with ha | ha
        · rcases List.mem_append.mp ha with ha | ha
          · obtain ⟨t, rfl⟩ := hF a ha
            simp [HostCall.isUncollapse]
          · obtain ⟨n, rfl⟩ := hC a ha
            simp [HostCall.isUncollapse]
        · obtain ⟨l, rfl⟩ := hH a ha
          simp [HostCall.isUncollapse]
      · obtain ⟨l, rfl⟩ := hS a ha
        simp [HostCall.isUncollapse]

/-- The main visibility trace has the focus / collapse / hide / show /
uncollapse / title segment shape, so its collapse calls precede its hide
call and its show call precedes its uncollapse call. -/
theorem toggleMainTrace_ordering (q : ℚ) (noTabSelected : Bool)
    (showTabIds hideTabIds : List Int) (showTabs : List TabView)
    (groups : Option (List Group)) (hasTabHide useNativeGroups : Bool) :
    (∀ i j a b,
      (toggleMainTrace q noTabSelected showTabIds hideTabIds showTabs groups
        hasTabHide useNativeGroups).get? i = some a → a.isCollapse →
      (toggleMainTrace q noTabSelected showTabIds hideTabIds showTabs groups
        hasTabHide useNativeGroups).get? j = some b → b.isHide → i < j) ∧
    (∀ i j a b,
      (toggleMainTrace q noTabSelected showTabIds hideTabIds showTabs groups
        hasTabHide useNativeGroups).get? i = some a → a.isShow →
      (toggleMainTrace q noTabSelected showTabIds hideTabIds showTabs groups
        hasTabHide useNativeGroups).get? j = some b → b.isUncollapse →
      i < j) := by
  simp only [toggleMainTrace]
  apply trace_segment_ordering
  · intro a ha
    split at ha
    · simp at ha
      exact ⟨_, ha⟩
    · simp at ha
  · intro a ha
    split at ha
    · cases groups with
      | none => simp at ha
      | some gs =>
        obtain ⟨g, hg, rfl⟩ := List.mem_map.mp ha
        exact ⟨_, rfl⟩
    · simp at ha
  · intro a ha
    split at ha
    · simp at ha
      exact ⟨_, ha⟩
    · simp at ha
  · intro a ha
    split at ha
    · simp at ha
      exact ⟨_, ha⟩
    · simp at ha
  · intro a ha
    split at ha
    · cases groups with
      | none => simp at ha
      | some gs =>
        cases hfind : gs.find? (fun g => (g.id : ℚ) == q) with
        | none => simp [hfind] at ha
        | some g =>
          simp only [hfind] at ha
          split at ha
          · simp at ha
            exact ⟨_, ha⟩
          · simp at ha
    · simp at ha
  · intro a ha
    split at ha
    · simp at ha
      exact ⟨_, ha⟩
    · simp at ha

/-- C9: within one hybrid-mode visibility toggle, the collapse calls for the
losing groups are all issued before the hide call for their tabs, and the
show call for the winning group's tabs is issued before the uncollapse call
for its native mirror. -/
theorem toggleVisibleTabs_hybrid_ordering (activeGroup : Option ℚ)
    (noTabSelected : Bool) (tabs : List TabView)
    (groups : Option (List Group)) (hasTabHide useNativeGroups : Bool)
    (hHide : hasTabHide = true) (hNative : useNativeGroups = true) :
    (∀ i j a b,
      (toggleVisibleTabs activeGroup noTabSelected tabs groups hasTabHide
        useNativeGroups).get? i = some a → a.isCollapse →
      (toggleVisibleTabs activeGroup noTabSelected tabs groups hasTabHide
        useNativeGroups).get? j = some b → b.isHide → i < j) ∧
    (∀ i j a b,
      (toggleVisibleTabs activeGroup noTabSelected tabs groups hasTabHide
        useNativeGroups).get? i = some a → a.isShow →
      (toggleVisibleTabs activeGroup noTabSelected tabs groups hasTabHide
        useNativeGroups).get? j = some b → b.isUncollapse → i < j) := by
  cases activeGroup with
  | none =>
    constructor <;>
      · intro i j a b hia _ _ _
        simp [toggleVisibleTabs] at hia
  | some q =>
    simp only [toggleVisibleTabs]
    split
    · constructor <;>
        · intro i j a b hia _ _ _
          simp at hia
    · split
      · constructor <;>
          · intro i j a b hia _ _ _
            simp at hia
      · split
        · constructor <;>
            · intro i j a b hia _ _ _
              simp at hia
        · exact toggleMainTrace_ordering q noTabSelected _ _ _ groups
            hasTabHide useNativeGroups

/-- Witness for C9: a hybrid-mode toggle with one losing group (collapsed
then hidden) and one winning group (shown then uncollapsed); in this run the
trace is collapse 101 / hide [11] / show [10] / uncollapse 102 / title, and
the theorem places index 0 before index 1 and index 2 before index 3. -/
theorem toggleVisibleTabs_hybrid_ordering_witness :
    (toggleVisibleTabs (some 1) false
        [⟨10, false, 0, some 1⟩, ⟨11, false, 0, some 0⟩]
        (some [⟨0, "A", "browser-default", .ref 101, ⟨0, 0, 0, 0⟩, 0, none⟩,
               ⟨1, "B", "browser-default", .ref 102, ⟨0, 0, 0, 0⟩, 0, none⟩])
        true true).get? 0 = some (HostCall.collapseGroup 101)
    ∧ (toggleVisibleTabs (some 1) false
        [⟨10, false, 0, some 1⟩, ⟨11, false, 0, some 0⟩]
        (some [⟨0, "A", "browser-default", .ref 101, ⟨0, 0, 0, 0⟩, 0, none⟩,
               ⟨1, "B", "browser-default", .ref 102, ⟨0, 0, 0, 0⟩, 0, none⟩])
        true true).get? 1 = some (HostCall.hideTabs [11])
    ∧ (toggleVisibleTabs (some 1) false
        [⟨10, false, 0, some 1⟩, ⟨11, false, 0, some 0⟩]
        (some [⟨0, "A", "browser-default", .ref 101, ⟨0, 0, 0, 0⟩, 0, none⟩,
               ⟨1, "B", "browser-default", .ref 102, ⟨0, 0, 0, 0⟩, 0, none⟩])
        true true).get? 2 = some (HostCall.showTabs [10])
    ∧ (toggleVisibleTabs (some 1) false
        [⟨10, false, 0, some 1⟩, ⟨11, false, 0, some 0⟩]
        (some [⟨0, "A", "browser-default", .ref 101, ⟨0, 0, 0, 0⟩, 0, none⟩,
               ⟨1, "B", "browser-default", .ref 102, ⟨0, 0, 0, 0⟩, 0, none⟩])
        true true).get? 3 = some (HostCall.uncollapseGroup 102)
    ∧ (0 : Nat) < 1 ∧ (2 : Nat) < 3 :=
  ⟨rfl, rfl, rfl, rfl,
   (toggleVisibleTabs_hybrid_ordering (some 1) false
      [⟨10, false, 0, some 1⟩, ⟨11, false, 0, some 0⟩]
      (some [⟨0, "A", "browser-default", .ref 101, ⟨0, 0, 0, 0⟩, 0, none⟩,
             ⟨1, "B", "browser-default", .ref 102, ⟨0, 0, 0, 0⟩, 0, none⟩])
      true true rfl rfl).1 0 1 (HostCall.collapseGroup 101)
      (HostCall.hideTabs [11]) rfl trivial rfl trivial,
   (toggleVisibleTabs_hybrid_ordering (some 1) false
      [⟨10, false, 0, some 1⟩, ⟨11, false, 0, some 0⟩]
      (some [⟨0, "A", "browser-default", .ref 101, ⟨0, 0, 0, 0⟩, 0, none⟩,
             ⟨1, "B", "browser-default", .ref 102, ⟨0, 0, 0, 0⟩, 0, none⟩])
      true true rfl rfl).2 2 3 (HostCall.showTabs [10])
      (HostCall.uncollapseGroup 102) rfl trivial rfl trivial⟩

/-- The round-trip result as the claim words it (for the refinement
comparison with `ensureUngroupedGroupExists`): the input with the ungrouped
pseudo-group appended with its system defaults when it was omitted, its
name / system mark / null native reference re-enforced when it was present,
and every other group unchanged. -/
def claimedRoundTripGroups (now : Int) (groups : Option (List Group)) :
    List Group :=
  let l := groups.getD []
  if l.any (fun g => g.id == UNGROUPED_GROUP_ID) then
    l.map (fun g =>
      if g.id == UNGROUPED_GROUP_ID then enforceUngrouped g else g)
  else l ++ [defaultUngroupedGroup now]

/-- Repairing a list whose head is the ungrouped entry rewrites only the
head. -/
theorem ensureUngrouped_cons_pos (now : Int) (a : Group) (rest : List Group)
    (hpa : (a.id == UNGROUPED_GROUP_ID) = true) :
    ensureUngroupedGroupExists now (some (a :: rest))
      = enforceUngrouped a :: rest := by
  simp [ensureUngroupedGroupExists, hpa]

/-- Repairing a list whose head is not the ungrouped entry keeps the head
and recurses. -/
theorem ensureUngrouped_cons_neg (now : Int) (a : Group) (rest : List Group)
    (hpa : (a.id == UNGROUPED_GROUP_ID) = false) :
    ensureUngroupedGroupExists now (some (a :: rest))
      = a :: ensureUngroupedGroupExists now (some rest) := by
  cases hfr : rest.findIdx? (fun g => g.id == UNGROUPED_GROUP_ID) with
  | none =>
    simp [ensureUngroupedGroupExists, hpa, hfr]
  | some i =>
    obtain ⟨hi, hp, hmin⟩ := List.findIdx?_eq_some_iff_getElem.mp hfr
    have hgi : rest[i]? = some rest[i] := List.getElem?_eq_getElem hi
    simp [ensureUngroupedGroupExists, hpa, hfr, hgi]

/-- The claim-worded repair also keeps a non-ungrouped head and recurses. -/
theorem claimedRoundTrip_cons_neg (now : Int) (a : Group) (rest : List Group)
    (hpa : (a.id == UNGROUPED_GROUP_ID) = false) :
    claimedRoundTripGroups now (some (a :: rest))
      = a :: claimedRoundTripGroups now (some rest) := by
  by_cases hany : rest.any (fun g => g.id == UNGROUPED_GROUP_ID) = true
  · simp [claimedRoundTripGroups, hany, hpa]
    intro heq
    exact absurd heq (by simpa using hpa)
  · have hany' : rest.any (fun g => g.id == UNGROUPED_GROUP_ID) = false :=
      Bool.eq_false_iff.mpr hany
    simp [claimedRoundTripGroups, hany', hpa]

/-- The enforcement map is the identity on lists without the ungrouped id. -/
theorem map_enforce_id (rest : List Group)
    (h : ∀ g ∈ rest, (g.id == UNGROUPED_GROUP_ID) = false) :
    rest.map (fun g =>
      if g.id == UNGROUPED_GROUP_ID then enforceUngrouped g else g) = rest := by
  calc rest.map (fun g =>
        if g.id == UNGROUPED_GROUP_ID then enforceUngrouped g else g)
      = rest.map id := List.map_congr_left (fun g hg => by simp [h g hg])
    _ = rest := List.map_id rest

/-- Function `ensureUngroupedGroupExists` coincides with the claim-worded repair on
inputs holding at most one ungrouped entry. -/
theorem ensureUngrouped_eq_claimed (now : Int) (l : List Group)
    (h : (l.filter (fun g => g.id == UNGROUPED_GROUP_ID)).length ≤ 1) :
    ensureUngroupedGroupExists now (some l)
      = claimedRoundTripGroups now (some l) := by
  induction l with
  | nil => rfl
  | cons a rest ih =>
    by_cases hpa : (a.id == UNGROUPED_GROUP_ID) = true
    · have hflt : (rest.filter (fun g => g.id == UNGROUPED_GROUP_ID)) = [] := by
        rw [List.filter_cons_of_pos (p := fun g => g.id == UNGROUPED_GROUP_ID)
          (a := a) hpa] at h
        simp only [List.length_cons] at h
        exact List.length_eq_zero.mp (by omega)
      have hrest : ∀ g ∈ rest, (g.id == UNGROUPED_GROUP_ID) = false := by
        intro g hg
        by_contra hb
        have hmem : g ∈ rest.filter (fun g => g.id == UNGROUPED_GROUP_ID) :=
          List.mem_filter.mpr ⟨hg, by simpa using hb⟩
        rw [hflt] at hmem
        exact absurd hmem (List.not_mem_nil g)
      have hany : (a :: rest).any (fun g => g.id == UNGROUPED_GROUP_ID) = true := by
        simp [hpa]
      rw [ensureUngrouped_cons_pos now a rest hpa]
      simp only [claimedRoundTripGroups, Option.getD_some]
      rw [if_pos hany, List.map_cons, if_pos hpa, map_enforce_id rest hrest]
    · have hpa' : (a.id == UNGROUPED_GROUP_ID) = false :=
        Bool.eq_false_iff.mpr hpa
      have h2 : (rest.filter (fun g => g.id == UNGROUPED_GROUP_ID)).length ≤ 1 := by
        rw [List.filter_cons_of_neg (p := fun g => g.id == UNGROUPED_GROUP_ID)
          (a := a) (by simp [hpa'])] at h
        exact h
      rw [ensureUngrouped_cons_neg now a rest hpa',
        claimedRoundTrip_cons_neg now a rest hpa', ih h2]

/-- C4: for every window and every input groups array (including a missing
one), `setGroups` followed by `getGroups` returns the input with the
ungrouped pseudo-group present — appended with its system defaults when it
was omitted, its name / system mark / null native reference re-enforced when
it was present, and all other groups unchanged (`claimedRoundTripGroups`
renders the claim's wording; registry ids are unique per window, rendered as
at most one stored ungrouped entry). -/
theorem setGroups_getGroups_roundTrip (st : SessionStore) (windowId now : Int)
    (groups : Option (List Group))
    (h : ((groups.getD []).filter
      (fun g => g.id == UNGROUPED_GROUP_ID)).length ≤ 1) :
    getGroups (setGroups st windowId now groups) windowId
      = some (claimedRoundTripGroups now groups) := by
  have hset : getGroups (setGroups st windowId now groups) windowId
      = some (ensureUngroupedGroupExists now groups) := by
    simp [getGroups, setGroups]
  rw [hset]
  cases groups with
  | none =>
    simp [ensureUngroupedGroupExists, claimedRoundTripGroups]
  | some l =>
    rw [ensureUngrouped_eq_claimed now l (by simpa using h)]

/-- Witness for C4 at a store with one window whose input omits the
ungrouped pseudo-group. -/
theorem setGroups_getGroups_roundTrip_witness :
    getGroups (setGroups ⟨fun _ => none⟩ 1 7
        (some [⟨0, "work", "browser-default", .nullRef, ⟨0, 0, 0, 0⟩, 3, none⟩]))
        1
      = some (claimedRoundTripGroups 7
        (some [⟨0, "work", "browser-default", .nullRef, ⟨0, 0, 0, 0⟩, 3, none⟩])) :=
  setGroups_getGroups_roundTrip ⟨fun _ => none⟩ 1 7
    (some [⟨0, "work", "browser-default", .nullRef, ⟨0, 0, 0, 0⟩, 3, none⟩])
    (by decide)

/-- The integer `≤` used by `getLowestPositiveGroupId`'s ascending sort is
transitive. -/
theorem intLeBool_trans : ∀ a b c : Int,
    (fun a b : Int => decide (a ≤ b)) a b = true →
    (fun a b : Int => decide (a ≤ b)) b c = true →
    (fun a b : Int => decide (a ≤ b)) a c = true := by
  intro a b c hab hbc
  simp only [decide_eq_true_eq] at *
  omega

/-- The integer `≤` used by `getLowestPositiveGroupId`'s ascending sort is
total. -/
theorem intLeBool_total : ∀ a b : Int,
    ((fun a b : Int => decide (a ≤ b)) a b
      || (fun a b : Int => decide (a ≤ b)) b a) = true := by
  intro a b
  simp only [Bool.or_eq_true, decide_eq_true_eq]
  omega

/-- When `getLowestPositiveGroupId` returns an id, it is a non-negative id of
the array and minimal among its non-negative ids. -/
theorem getLowestPositiveGroupId_some_spec (gs : List Group) (m : Int)
    (h : getLowestPositiveGroupId (some gs) = some m) :
    0 ≤ m ∧ (∃ g ∈ gs, g.id = m) ∧ ∀ g ∈ gs, 0 ≤ g.id → m ≤ g.id := by
  simp only [getLowestPositiveGroupId] at h
  by_cases hlen : (gs.length == 0) = true
  · rw [if_pos hlen] at h
    exact absurd h (by simp)
  · rw [if_neg hlen] at h
    cases hs : ((gs.map (fun g => g.id)).filter
        (fun id => id ≥ 0)).mergeSort (fun a b => a ≤ b) with
    | nil =>
      rw [hs] at h
      exact absurd h (by simp)
    | cons x t =>
      rw [hs] at h
      have hx : x = m := by simpa using h
      subst hx
      have hmemSort : x ∈ ((gs.map (fun g => g.id)).filter
          (fun id => id ≥ 0)).mergeSort (fun a b => a ≤ b) := by
        rw [hs]
        exact List.mem_cons_self x t
      have hmemFil : x ∈ (gs.map (fun g => g.id)).filter (fun id => id ≥ 0) :=
        List.mem_mergeSort.mp hmemSort
      obtain ⟨hmemMap, hposx⟩ := List.mem_filter.mp hmemFil
      obtain ⟨g, hgmem, hgid⟩ := List.mem_map.mp hmemMap
      have hsorted := @List.sorted_mergeSort Int (fun a b => decide (a ≤ b))
        intLeBool_trans intLeBool_total
        ((gs.map (fun g => g.id)).filter (fun id => id ≥ 0))
      rw [hs] at hsorted
      refine ⟨by simpa using hposx, ⟨g, hgmem, hgid⟩, ?_⟩
      intro g2 hg2 hg2pos
      have hg2fil : g2.id ∈ (gs.map (fun g => g.id)).filter (fun id => id ≥ 0) :=
        List.mem_filter.mpr ⟨List.mem_map_of_mem _ hg2, by simpa using hg2pos⟩
      have hg2sort : g2.id ∈ x :: t := by
        rw [← hs]
        exact List.mem_mergeSort.mpr hg2fil
      rcases List.mem_cons.mp hg2sort with heq | hmem
      · omega
      · have := (List.pairwise_cons.mp hsorted).1 g2.id hmem
        simpa using this

/-- When `getLowestPositiveGroupId` returns nothing, no array entry has a
non-negative id. -/
theorem getLowestPositiveGroupId_none_spec (gs : List Group)
    (h : getLowestPositiveGroupId (some gs) = none) :
    ∀ g ∈ gs, g.id < 0 := by
  intro g hg
  by_contra hge
  push_neg at hge
  simp only [getLowestPositiveGroupId] at h
  by_cases hlen : (gs.length == 0) = true
  · have hnil : gs = [] := by simpa using hlen
    rw [hnil] at hg
    exact absurd hg (List.not_mem_nil g)
  · rw [if_neg hlen] at h
    have hmemFil : g.id ∈ (gs.map (fun g => g.id)).filter (fun id => id ≥ 0) :=
      List.mem_filter.mpr ⟨List.mem_map_of_mem _ hg, by simpa using hge⟩
    have hmemSort : g.id ∈ ((gs.map (fun g => g.id)).filter
        (fun id => id ≥ 0)).mergeSort (fun a b => a ≤ b) :=
      List.mem_mergeSort.mpr hmemFil
    cases hs : ((gs.map (fun g => g.id)).filter
        (fun id => id ≥ 0)).mergeSort (fun a b => a ≤ b) with
    | nil =>
      rw [hs] at hmemSort
      exact absurd hmemSort (List.not_mem_nil _)
    | cons x t =>
      rw [hs] at h
      exact absurd h (by simp)

/-- C7: a tab created unassigned in a window whose active pointer is unset
(`undefined` or `null`) resolves to the lowest existing non-negative group
id — or `0` when no such group exists — and this value is persisted both as
the tab's assignment and as the window's active group. -/
theorem tabCreated_fallback_assignment (st : WindowState)
    (h : st.activeGroup = JsOpt.undef ∨ st.activeGroup = JsOpt.nullv) :
    ∃ r, tabCreatedAssignGroup st none
        = ({ st with activeGroup := .val r }, some r)
      ∧ (((∃ g ∈ st.groups.getD [], g.id = r) ∧ 0 ≤ r ∧
            ∀ g ∈ st.groups.getD [], 0 ≤ g.id → r ≤ g.id)
         ∨ ((∀ g ∈ st.groups.getD [], g.id < 0) ∧ r = 0)) := by
  have hfb : tabCreatedAssignGroup st none
      = ({ st with activeGroup :=
            JsOpt.val ((getLowestPositiveGroupId st.groups).getD 0) },
         some ((getLowestPositiveGroupId st.groups).getD 0)) := by
    rcases h with h | h <;> simp [tabCreatedAssignGroup, h]
  refine ⟨(getLowestPositiveGroupId st.groups).getD 0, hfb, ?_⟩
  cases hg : getLowestPositiveGroupId st.groups with
  | none =>
    refine Or.inr ⟨?_, rfl⟩
    cases hgs : st.groups with
    | none => simp
    | some gs =>
      intro g hgmem
      rw [hgs] at hg
      exact getLowestPositiveGroupId_none_spec gs hg g (by simpa using hgmem)
  | some m =>
    left
    cases hgs : st.groups with
    | none =>
      rw [hgs] at hg
      exact absurd hg (by simp [getLowestPositiveGroupId])
    | some gs =>
      rw [hgs] at hg
      obtain ⟨h0, hmem, hmin⟩ := getLowestPositiveGroupId_some_spec gs m hg
      simp only [Option.getD_some]
      exact ⟨hmem, h0, hmin⟩

/-- Witness for C7: a window with groups 5, 3 and the ungrouped pseudo-group
and an `undefined` active pointer resolves the new tab to group 3. -/
theorem tabCreated_fallback_assignment_witness :
    ∃ r, tabCreatedAssignGroup
        ⟨some [⟨5, "a", "browser-default", .nullRef, ⟨0, 0, 0, 0⟩, 0, none⟩,
               ⟨3, "b", "browser-default", .nullRef, ⟨0, 0, 0, 0⟩, 0, none⟩,
               defaultUngroupedGroup 0], JsOpt.undef, none⟩ none
        = ({ groups := some [⟨5, "a", "browser-default", .nullRef,
               ⟨0, 0, 0, 0⟩, 0, none⟩,
               ⟨3, "b", "browser-default", .nullRef, ⟨0, 0, 0, 0⟩, 0, none⟩,
               defaultUngroupedGroup 0]
             activeGroup := JsOpt.val r
             groupIndex := none }, some r)
      ∧ (((∃ g ∈ [⟨5, "a", "browser-default", .nullRef, ⟨0, 0, 0, 0⟩, 0, none⟩,
               ⟨3, "b", "browser-default", .nullRef, ⟨0, 0, 0, 0⟩, 0, none⟩,
               defaultUngroupedGroup 0], Group.id g = r) ∧ 0 ≤ r ∧
            ∀ g ∈ [⟨5, "a", "browser-default", .nullRef, ⟨0, 0, 0, 0⟩, 0, none⟩,
               ⟨3, "b", "browser-default", .nullRef, ⟨0, 0, 0, 0⟩, 0, none⟩,
               defaultUngroupedGroup 0], 0 ≤ Group.id g → r ≤ Group.id g)
         ∨ ((∀ g ∈ [⟨5, "a", "browser-default", .nullRef, ⟨0, 0, 0, 0⟩, 0,
               none⟩,
               ⟨3, "b", "browser-default", .nullRef, ⟨0, 0, 0, 0⟩, 0, none⟩,
               defaultUngroupedGroup 0], Group.id g < 0) ∧ r = 0)) :=
  tabCreated_fallback_assignment
    ⟨some [⟨5, "a", "browser-default", .nullRef, ⟨0, 0, 0, 0⟩, 0, none⟩,
           ⟨3, "b", "browser-default", .nullRef, ⟨0, 0, 0, 0⟩, 0, none⟩,
           defaultUngroupedGroup 0], JsOpt.undef, none⟩
    (Or.inl rfl)

/-- The migration-path safety check refuses every non-empty candidate set
whose size equals the window's non-overview tab count. -/
theorem canSafely_full_refuses (enrichedTabs : List EnrichedTab) (we : Bool)
    (allTabs : List WTab) (hne : enrichedTabs ≠ [])
    (hcov : enrichedTabs.length = (nonPanoramaTabs allTabs).length) :
    canSafelyGroupTabs enrichedTabs we allTabs = false := by
  cases we with
  | false => rfl
  | true =>
    have h1 : 1 ≤ enrichedTabs.length := List.length_pos.mpr hne
    have h2 : 1 ≤ (nonPanoramaTabs allTabs).length := hcov ▸ h1
    simp [canSafelyGroupTabs, hcov, h2]

/-- The tab-created / tab-activated safety check refuses a candidate set
covering all non-overview tabs only in the single-tab case. -/
theorem validate_single_tab_refuses (groupTabs : List EnrichedTab)
    (we1 : Bool) (pid : Int) (allTabs2 : List WTab)
    (hone : (nonPanoramaTabs allTabs2).length = 1)
    (hcov2 : groupTabs.length = (nonPanoramaTabs allTabs2).length) :
    validateAndCheckSafety groupTabs we1 pid allTabs2 = false := by
  simp only [validateAndCheckSafety]
  split_ifs with h1 h2 h3 h4 h5 <;> try rfl
  exact absurd (by simp [hcov2, hone]) h5

/-- C1 (amended): full-window materialization is refused on the migration
path — `canSafelyGroupTabs` rejects any non-empty candidate set whose size
equals the window's non-overview tab count, and `migrateOneGroup` then
issues no host grouping call — while on the tab-created and tab-activated
paths `validateAndCheckSafety` rejects such a set only when the window has
exactly one non-overview tab. -/
theorem materialization_full_window_refusal (enrichedTabs : List EnrichedTab)
    (we : Bool) (allTabs : List WTab) (groupTabs : List EnrichedTab)
    (we1 we2 : Bool) (pid : Int) (allTabs2 : List WTab)
    (env : MigrationWindowEnv) (group : Group)
    (hne : enrichedTabs ≠ [])
    (hcov : enrichedTabs.length = (nonPanoramaTabs allTabs).length)
    (hone : (nonPanoramaTabs allTabs2).length = 1)
    (hcov2 : groupTabs.length = (nonPanoramaTabs allTabs2).length)
    (hcovm : (env.enrichedTabs.filter (fun t =>
        t.panoramaGroupId == some group.id && t.windowId == env.windowId
          && !t.isPanoramaView)).length
      = (nonPanoramaTabs env.allWindowTabs).length) :
    canSafelyGroupTabs enrichedTabs we allTabs = false ∧
    tabCreatedIssuesGroupCall groupTabs we1 we2 pid allTabs2 = false ∧
    ((migrateOneGroup env group).2).all (fun c => !c.isGroupingCall)
      = true := by
  refine ⟨canSafely_full_refuses enrichedTabs we allTabs hne hcov, ?_, ?_⟩
  · simp [tabCreatedIssuesGroupCall,
      validate_single_tab_refuses groupTabs we1 pid allTabs2 hone hcov2]
  · have htr : (migrateOneGroup env group).2 = []
        ∨ (migrateOneGroup env group).2
          = [HostCall.getNativeGroup group.nativeGroupId.refId] := by
      by_cases h1 : (group.nativeGroupId.present
          && env.validNativeIds.contains group.nativeGroupId.refId) = true
      · exact Or.inr (by
          simp only [migrateOneGroup]
          rw [if_pos h1])
      · by_cases h2 : ((env.enrichedTabs.filter (fun t =>
            t.panoramaGroupId == some group.id && t.windowId == env.windowId
              && !t.isPanoramaView)).length == 0) = true
        · by_cases hp : group.nativeGroupId.present = true
          · exact Or.inr (by
              simp only [migrateOneGroup]
              rw [if_neg h1, if_pos h2]
              simp [hp])
          · exact Or.inl (by
              simp only [migrateOneGroup]
              rw [if_neg h1, if_pos h2]
              simp [hp])
        · by_cases h3 : (env.activeGroup == JsOpt.val group.id) = true
          · have hne : (env.enrichedTabs.filter (fun t =>
                t.panoramaGroupId == some group.id
                  && t.windowId == env.windowId && !t.isPanoramaView)) ≠ [] := by
              intro hnil
              rw [hnil] at h2
              exact h2 rfl
            have hsafe := canSafely_full_refuses _ env.windowExists
              env.allWindowTabs hne hcovm
            have hcond : (!canSafelyGroupTabs (env.enrichedTabs.filter (fun t =>
                t.panoramaGroupId == some group.id
                  && t.windowId == env.windowId && !t.isPanoramaView))
                env.windowExists env.allWindowTabs) = true := by
              rw [hsafe]
              rfl
            by_cases hp : group.nativeGroupId.present = true
            · exact Or.inr (by
                simp only [migrateOneGroup]
                rw [if_neg h1, if_neg h2, if_pos h3, if_pos hcond]
                simp [hp])
            · exact Or.inl (by
                simp only [migrateOneGroup]
                rw [if_neg h1, if_neg h2, if_pos h3, if_pos hcond]
                simp [hp])
          · by_cases hp : group.nativeGroupId.present = true
            · exact Or.inr (by
                simp only [migrateOneGroup]
                rw [if_neg h1, if_neg h2, if_neg h3]
                simp [hp])
            · exact Or.inl (by
                simp only [migrateOneGroup]
                rw [if_neg h1, if_neg h2, if_neg h3]
                simp [hp])
    rcases htr with htr | htr <;> rw [htr] <;> rfl

/-- C1 counterexample: in a window with two non-overview tabs, a tab-created
materialization whose candidate set contains every non-overview tab of the
window passes `validateAndCheckSafety` and reaches the host grouping call —
the claim's refusal does not happen on this path. -/
theorem validateAndCheckSafety_full_window_not_refused :
    ((nonPanoramaTabs
        [⟨1, 7, "https://a", "", false⟩, ⟨2, 7, "https://b", "", false⟩]).all
      (fun t =>
        (([⟨1, 7, some 0, false, false⟩, ⟨2, 7, some 0, false, false⟩] :
            List EnrichedTab).map (fun e => e.tabId)).contains t.id)) = true
    ∧ tabCreatedIssuesGroupCall
        [⟨1, 7, some 0, false, false⟩, ⟨2, 7, some 0, false, false⟩]
        true true 0
        [⟨1, 7, "https://a", "", false⟩, ⟨2, 7, "https://b", "", false⟩]
      = true := by
  constructor
  · rfl
  · rfl

/-- Witness for the amended C1 at a one-tab window (the case the tab-created
path does refuse) and a migration environment covering all non-overview
tabs. -/
theorem materialization_full_window_refusal_witness :
    canSafelyGroupTabs [⟨1, 7, some 0, false, false⟩] true
      [⟨1, 7, "https://a", "", false⟩] = false ∧
    tabCreatedIssuesGroupCall [⟨9, 4, some 2, false, false⟩] true true 2
      [⟨9, 4, "https://c", "", false⟩] = false ∧
    ((migrateOneGroup
        ⟨7, true, [⟨1, 7, "https://a", "", false⟩],
         [⟨1, 7, some 0, false, false⟩], JsOpt.val 0, [], 55, 7⟩
        ⟨0, "g", "browser-default", .nullRef, ⟨0, 0, 0, 0⟩, 0, none⟩).2).all
      (fun c => !c.isGroupingCall) = true :=
  materialization_full_window_refusal
    [⟨1, 7, some 0, false, false⟩] true [⟨1, 7, "https://a", "", false⟩]
    [⟨9, 4, some 2, false, false⟩] true true 2 [⟨9, 4, "https://c", "", false⟩]
    ⟨7, true, [⟨1, 7, "https://a", "", false⟩],
     [⟨1, 7, some 0, false, false⟩], JsOpt.val 0, [], 55, 7⟩
    ⟨0, "g", "browser-default", .nullRef, ⟨0, 0, 0, 0⟩, 0, none⟩
    (by simp) (by rfl) (by rfl) (by rfl) (by rfl)

/-- Function `updateFirst` leaves every element not satisfying the predicate at its
position. -/
theorem updateFirst_get?_of_neg {α : Type} (p : α → Bool) (f : α → α)
    (l : List α) (i : Nat) (a : α) (ha : l.get? i = some a)
    (hpa : p a = false) : (updateFirst p f l).get? i = some a := by
  induction l generalizing i with
  | nil => simp at ha
  | cons x rest ih =>
    simp only [updateFirst]
    by_cases hx : p x = true
    · rw [if_pos hx]
      cases i with
      | zero =>
        simp only [List.get?_cons_zero, Option.some.injEq] at ha
        subst ha
        exact absurd hx (by simp [hpa])
      | succ n => simpa using ha
    · rw [if_neg hx]
      cases i with
      | zero => simpa using ha
      | succ n =>
        simp only [List.get?_cons_succ] at ha ⊢
        exact ih n ha

/-- Function `ensureUngroupedGroupExists` leaves every non-ungrouped entry at its
position. -/
theorem ensureUngrouped_get?_of_ne (now : Int) (l : List Group) (i : Nat)
    (a : Group) (ha : l.get? i = some a)
    (hpa : (a.id == UNGROUPED_GROUP_ID) = false) :
    (ensureUngroupedGroupExists now (some l)).get? i = some a := by
  cases hf : l.findIdx? (fun g => g.id == UNGROUPED_GROUP_ID) with
  | none =>
    have hi : i < l.length := by
      by_contra hge
      push_neg at hge
      rw [List.get?_eq_getElem?, List.getElem?_eq_none hge] at ha
      exact absurd ha (by simp)
    simp only [ensureUngroupedGroupExists, Option.getD_some, hf]
    rw [List.get?_append hi]
    exact ha
  | some j =>
    obtain ⟨hj, hpj, _⟩ := List.findIdx?_eq_some_iff_getElem.mp hf
    have hgj : l[j]? = some l[j] := List.getElem?_eq_getElem hj
    have hgj2 : l.get? j = some l[j] := by
      rw [List.get?_eq_getElem?]
      exact hgj
    simp only [ensureUngroupedGroupExists, Option.getD_some, hf, hgj2]
    by_cases hij : j = i
    · subst hij
      rw [List.get?_eq_getElem?, hgj, Option.some.injEq] at ha
      subst ha
      exact absurd hpj (by simp [hpa])
    · rw [List.get?_eq_getElem?, List.getElem?_set_ne hij,
        ← List.get?_eq_getElem?]
      exact ha

/-- The registry effect of `tabActivated` on a window's groups is either no
change or the update of the first group carrying the activated tab's group
id with a fresh or linked native reference. -/
theorem tabActivatedEffect_groups_cases (now : Int) (st : WindowState)
    (tab : WTab) (g : Int) (u : Bool) (ngs : List (Int × List Int))
    (ets : List EnrichedTab) (we : Bool) (awt : List WTab) (fid cid : Int) :
    (tabActivatedEffect now st tab (some g) u ngs ets we awt fid cid).groups
        = st.groups
    ∨ ∃ nid,
        (tabActivatedEffect now st tab (some g) u ngs ets we awt fid
          cid).groups
        = some (ensureUngroupedGroupExists now (some (updateFirst
            (fun gr => gr.id == g)
            (fun gr => { gr with nativeGroupId := .ref nid })
            (st.groups.getD [])))) := by
  simp only [tabActivatedEffect]
  by_cases hpin : tab.pinned = true
  · rw [if_pos hpin]
    exact Or.inl rfl
  · rw [if_neg hpin]
    by_cases hg1 : (g == PANORAMA_VIEW_GROUP_ID) = true
    · rw [if_pos hg1]
      exact Or.inl rfl
    · rw [if_neg hg1]
      by_cases hu : (!u) = true
      · rw [if_pos hu]
        exact Or.inl rfl
      · rw [if_neg hu]
        cases hfind : (st.groups.getD []).find? (fun gr => gr.id == g) with
        | none =>
          simp only [hfind]
          exact Or.inl trivial
        | some cg =>
          simp only [hfind]
          by_cases hc1 : (!cg.nativeGroupId.truthy
              && ((ngs.find? (fun p => p.2.contains tab.id)) == none)) = true
          · rw [if_pos hc1]
            by_cases hlen : (ets.filter (fun t =>
                t.panoramaGroupId == some g && !t.isPanoramaView)).length > 0
            · rw [if_pos hlen]
              by_cases hsafe : (!(validateAndCheckSafety (ets.filter (fun t =>
                  t.panoramaGroupId == some g && !t.isPanoramaView)) we g
                    awt)) = true
              · rw [if_pos hsafe]
                exact Or.inl rfl
              · rw [if_neg hsafe]
                by_cases hwe : (!we) = true
                · rw [if_pos hwe]
                  exact Or.inl rfl
                · rw [if_neg hwe]
                  by_cases hcid : (cid != tab.windowId) = true
                  · rw [if_pos hcid]
                    exact Or.inl rfl
                  · rw [if_neg hcid]
                    exact Or.inr ⟨fid, rfl⟩
            · rw [if_neg hlen]
              exact Or.inl rfl
          · rw [if_neg hc1]
            by_cases hc2 : (!cg.nativeGroupId.truthy) = true
            · rw [if_pos hc2]
              cases hex : ngs.find? (fun p => p.2.contains tab.id) with
              | some e =>
                simp only [hex]
                exact Or.inr ⟨e.1, rfl⟩
              | none =>
                simp only [hex]
                exact Or.inl trivial
            · rw [if_neg hc2]
              exact Or.inl rfl

/-- C3 (amended): completing operations never strip an inactive group's
native reference — `tabActivatedEffect` modifies at most the activated
group's record (and the re-enforced ungrouped pseudo-group): every group
with a different, non-ungrouped id survives at its position with all fields,
`nativeGroupId` included, unchanged.  A native reference is cleared only by
teardown, host native-group-removed sync, or failed verification. -/
theorem tabActivatedEffect_frame (now : Int) (st : WindowState) (tab : WTab)
    (g : Int) (u : Bool) (ngs : List (Int × List Int))
    (ets : List EnrichedTab) (we : Bool) (awt : List WTab) (fid cid : Int)
    (i : Nat) (gr : Group)
    (hgr : (st.groups.getD []).get? i = some gr)
    (hne : (gr.id == g) = false)
    (hnu : (gr.id == UNGROUPED_GROUP_ID) = false) :
    (((tabActivatedEffect now st tab (some g) u ngs ets we awt fid
        cid).groups).getD []).get? i = some gr := by
  rcases tabActivatedEffect_groups_cases now st tab g u ngs ets we awt fid cid
    with hcase | ⟨nid, hcase⟩
  · rw [hcase]
    exact hgr
  · rw [hcase]
    exact ensureUngrouped_get?_of_ne now _ i gr
      (updateFirst_get?_of_neg _ _ _ i gr hgr hne) hnu

/-- C3 counterexample: a window satisfying "nativeGroupId only on the active
group" (group 0 active, mirrored as native group 101) violates it after a
completed `tabActivated` that switches to group 1 and materializes native
group 102 — group 0 keeps its `nativeGroupId` while no longer active. -/
theorem tabActivated_keeps_inactive_nativeGroupId :
    nativeOnlyOnActiveGroup
      ⟨some [⟨0, "A", "browser-default", .ref 101, ⟨0, 0, 0, 0⟩, 0, none⟩,
             ⟨1, "B", "browser-default", .nullRef, ⟨0, 0, 0, 0⟩, 0, none⟩,
             defaultUngroupedGroup 0], JsOpt.val 0, none⟩ = true
    ∧ nativeOnlyOnActiveGroup
        (tabActivatedEffect 0
          ⟨some [⟨0, "A", "browser-default", .ref 101, ⟨0, 0, 0, 0⟩, 0, none⟩,
                 ⟨1, "B", "browser-default", .nullRef, ⟨0, 0, 0, 0⟩, 0, none⟩,
                 defaultUngroupedGroup 0], JsOpt.val 0, none⟩
          ⟨12, 1, "https://t", "", false⟩ (some 1) true [(101, [10, 11])]
          [⟨10, 1, some 0, false, false⟩, ⟨11, 1, some 0, false, false⟩,
           ⟨12, 1, some 1, false, false⟩, ⟨13, 1, some 1, false, false⟩,
           ⟨9, 1, some (-1), true, false⟩]
          true
          [⟨9, 1, "moz-extension://panorama/view.html", "", false⟩,
           ⟨10, 1, "https://a", "", false⟩, ⟨11, 1, "https://b", "", false⟩,
           ⟨12, 1, "https://c", "", false⟩, ⟨13, 1, "https://d", "", false⟩]
          102 1) = false := by
  constructor
  · rfl
  · rfl

/-- Witness for the amended C3: the previously active group 0 of the
counterexample state survives the activation of group 1 unchanged, native
reference included. -/
theorem tabActivatedEffect_frame_witness :
    (((tabActivatedEffect 0
        ⟨some [⟨0, "A", "browser-default", .ref 101, ⟨0, 0, 0, 0⟩, 0, none⟩,
               ⟨1, "B", "browser-default", .nullRef, ⟨0, 0, 0, 0⟩, 0, none⟩,
               defaultUngroupedGroup 0], JsOpt.val 0, none⟩
        ⟨12, 1, "https://t", "", false⟩ (some 1) true [(101, [10, 11])]
        [⟨10, 1, some 0, false, false⟩, ⟨11, 1, some 0, false, false⟩,
         ⟨12, 1, some 1, false, false⟩, ⟨13, 1, some 1, false, false⟩,
         ⟨9, 1, some (-1), true, false⟩]
        true
        [⟨9, 1, "moz-extension://panorama/view.html", "", false⟩,
         ⟨10, 1, "https://a", "", false⟩, ⟨11, 1, "https://b", "", false⟩,
         ⟨12, 1, "https://c", "", false⟩, ⟨13, 1, "https://d", "", false⟩]
        102 1).groups).getD []).get? 0
      = some ⟨0, "A", "browser-default", .ref 101, ⟨0, 0, 0, 0⟩, 0, none⟩ :=
  tabActivatedEffect_frame 0
    ⟨some [⟨0, "A", "browser-default", .ref 101, ⟨0, 0, 0, 0⟩, 0, none⟩,
           ⟨1, "B", "browser-default", .nullRef, ⟨0, 0, 0, 0⟩, 0, none⟩,
           defaultUngroupedGroup 0], JsOpt.val 0, none⟩
    ⟨12, 1, "https://t", "", false⟩ 1 true [(101, [10, 11])]
    [⟨10, 1, some 0, false, false⟩, ⟨11, 1, some 0, false, false⟩,
     ⟨12, 1, some 1, false, false⟩, ⟨13, 1, some 1, false, false⟩,
     ⟨9, 1, some (-1), true, false⟩]
    true
    [⟨9, 1, "moz-extension://panorama/view.html", "", false⟩,
     ⟨10, 1, "https://a", "", false⟩, ⟨11, 1, "https://b", "", false⟩,
     ⟨12, 1, "https://c", "", false⟩, ⟨13, 1, "https://d", "", false⟩]
    102 1 0 ⟨0, "A", "browser-default", .ref 101, ⟨0, 0, 0, 0⟩, 0, none⟩
    rfl rfl rfl

/-- C5: migration is idempotent — a run leaves the durable completion flag
set, so a second run with no intervening change returns before touching any
window (identical persisted state, empty host-call trace), and in a forced
re-run every group whose native reference re-verifies against the host is
returned unchanged with only a read call. -/
theorem migrateToHybridGroups_idempotent (now : Int) (st : MigrationState)
    (env : MigrationWindowEnv) (group : Group) (n : Int)
    (h1 : group.nativeGroupId = .ref n)
    (h2 : env.validNativeIds.contains n = true) :
    (migrateToHybridGroups true now
        (migrateToHybridGroups true now st).1).1
      = (migrateToHybridGroups true now st).1
    ∧ (migrateToHybridGroups true now
        (migrateToHybridGroups true now st).1).2 = []
    ∧ migrateOneGroup env group = (group, [HostCall.getNativeGroup n]) := by
  have hflag : (migrateToHybridGroups true now st).1.migrationComplete
      = true := by
    by_cases hm : st.migrationComplete = true
    · simp [migrateToHybridGroups, hm]
    · simp [migrateToHybridGroups, hm]
  set X := (migrateToHybridGroups true now st).1 with hX
  refine ⟨?_, ?_, ?_⟩
  · simp [migrateToHybridGroups, hflag]
  · simp [migrateToHybridGroups, hflag]
  · simp only [migrateOneGroup]
    rw [if_pos (show (group.nativeGroupId.present
        && env.validNativeIds.contains group.nativeGroupId.refId) = true by
      rw [h1]
      simpa [NativeRef.present, NativeRef.refId] using h2)]
    rw [h1]
    rfl

/-- Witness for C5 at a one-window state and a group whose native reference
re-verifies. -/
theorem migrateToHybridGroups_idempotent_witness :
    (migrateToHybridGroups true 9
        (migrateToHybridGroups true 9 ⟨false, []⟩).1).1
      = (migrateToHybridGroups true 9 ⟨false, []⟩).1
    ∧ (migrateToHybridGroups true 9
        (migrateToHybridGroups true 9 ⟨false, []⟩).1).2 = []
    ∧ migrateOneGroup ⟨1, true, [], [], JsOpt.val 0, [5], 6, 1⟩
        ⟨0, "g", "browser-default", .ref 5, ⟨0, 0, 0, 0⟩, 0, none⟩
      = (⟨0, "g", "browser-default", .ref 5, ⟨0, 0, 0, 0⟩, 0, none⟩,
         [HostCall.getNativeGroup 5]) :=
  migrateToHybridGroups_idempotent 9 ⟨false, []⟩
    ⟨1, true, [], [], JsOpt.val 0, [5], 6, 1⟩
    ⟨0, "g", "browser-default", .ref 5, ⟨0, 0, 0, 0⟩, 0, none⟩ 5 rfl rfl

/-- C6 (code bug): deleting the window's only user group creates no
replacement group — because the source re-checks `leftGroups.length` after
`setGroups` has pushed the ungrouped pseudo-group into that same array, the
`createGroupInWindow` branch cannot run; the registry is left holding only
the ungrouped pseudo-group and the active pointer still references the
deleted group. -/
theorem deleteGroup_last_group_no_replacement :
    (deleteGroupWithCleanup 200 "Unnamed group " true [] ⟨0, .nullRef, [5]⟩
        ⟨some [⟨0, "Group 0", "browser-default", .nullRef, ⟨0, 0, 1/2, 1/2⟩,
          100, none⟩, defaultUngroupedGroup 100], JsOpt.val 0, some 1⟩).2.1
      = false
    ∧ (((deleteGroupWithCleanup 200 "Unnamed group " true []
        ⟨0, .nullRef, [5]⟩
        ⟨some [⟨0, "Group 0", "browser-default", .nullRef, ⟨0, 0, 1/2, 1/2⟩,
          100, none⟩, defaultUngroupedGroup 100], JsOpt.val 0,
          some 1⟩).1.groups).getD []).length = 1
    ∧ (((deleteGroupWithCleanup 200 "Unnamed group " true []
        ⟨0, .nullRef, [5]⟩
        ⟨some [⟨0, "Group 0", "browser-default", .nullRef, ⟨0, 0, 1/2, 1/2⟩,
          100, none⟩, defaultUngroupedGroup 100], JsOpt.val 0,
          some 1⟩).1.groups).getD []).all
        (fun g => g.id == UNGROUPED_GROUP_ID) = true
    ∧ (deleteGroupWithCleanup 200 "Unnamed group " true [] ⟨0, .nullRef, [5]⟩
        ⟨some [⟨0, "Group 0", "browser-default", .nullRef, ⟨0, 0, 1/2, 1/2⟩,
          100, none⟩, defaultUngroupedGroup 100], JsOpt.val 0,
          some 1⟩).1.activeGroup = JsOpt.val 0 := by
  refine ⟨rfl, rfl, rfl, rfl⟩

/-- Writing an element back at its own position is a no-op. -/
theorem set_get?_self {α : Type} (l : List α) (i : Nat) (a : α)
    (h : l.get? i = some a) : l.set i a = l := by
  induction l generalizing i with
  | nil => rfl
  | cons x rest ih =>
    cases i with
    | zero =>
      simp only [List.get?_cons_zero, Option.some.injEq] at h
      subst h
      rfl
    | succ n =>
      simp only [List.get?_cons_succ] at h
      simp [List.set_cons_succ, ih n h]

/-- Stripping preserves the group id. -/
theorem stripNativeGroupId_id (g : Group) :
    (stripNativeGroupId g).id = g.id := by
  unfold stripNativeGroupId
  split <;> rfl

/-- On an array whose ungrouped entry is already canonical, the `setGroups`
repair is the identity. -/
theorem ensureUngrouped_fixpoint (now : Int) (gs : List Group)
    (h : ungroupedCanonical gs = true) :
    ensureUngroupedGroupExists now (some gs) = gs := by
  induction gs with
  | nil => simp [ungroupedCanonical] at h
  | cons a rest ih =>
    by_cases hpa : (a.id == UNGROUPED_GROUP_ID) = true
    · have hfields : (a.name == UNGROUPED_GROUP_NAME
          && a.isSystemGroup == some true
          && a.nativeGroupId == NativeRef.nullRef) = true := by
        unfold ungroupedCanonical at h
        rw [List.find?_cons_of_pos rest hpa] at h
        exact h
      obtain ⟨⟨hn, hs⟩, hr⟩ :
          ((a.name == UNGROUPED_GROUP_NAME) = true
            ∧ (a.isSystemGroup == some true) = true)
          ∧ (a.nativeGroupId == NativeRef.nullRef) = true := by
        simpa [Bool.and_eq_true] using hfields
      have henf : enforceUngrouped a = a := by
        cases a with
        | mk id name cid ngi rect lm sys =>
          simp only [enforceUngrouped]
          simp_all
      rw [ensureUngrouped_cons_pos now a rest hpa, henf]
    · have hpa' : (a.id == UNGROUPED_GROUP_ID) = false :=
        Bool.eq_false_iff.mpr hpa
      have hrest : ungroupedCanonical rest = true := by
        unfold ungroupedCanonical at h ⊢
        rw [List.find?_cons_of_neg rest (by simp [hpa'])] at h
        exact h
      rw [ensureUngrouped_cons_neg now a rest hpa', ih hrest]

/-- Stripping keeps a canonical ungrouped entry canonical. -/
theorem ungroupedCanonical_map_strip (gs : List Group)
    (h : ungroupedCanonical gs = true) :
    ungroupedCanonical (gs.map stripNativeGroupId) = true := by
  have hfmap : (gs.map stripNativeGroupId).find?
      (fun g => g.id == UNGROUPED_GROUP_ID)
      = (gs.find? (fun g => g.id == UNGROUPED_GROUP_ID)).map
          stripNativeGroupId := by
    rw [List.find?_map]
    have hcomp : ((fun g : Group => g.id == UNGROUPED_GROUP_ID)
        ∘ stripNativeGroupId) = (fun g : Group => g.id == UNGROUPED_GROUP_ID) := by
      funext g
      simp [Function.comp, stripNativeGroupId_id g]
    rw [hcomp]
  unfold ungroupedCanonical at h ⊢
  rw [hfmap]
  cases hfind : gs.find? (fun g => g.id == UNGROUPED_GROUP_ID) with
  | none =>
    rw [hfind] at h
    exact absurd h (by simp)
  | some u =>
    rw [hfind] at h
    have hnull : u.nativeGroupId = .nullRef := by
      have hsplit := (Bool.and_eq_true _ _).mp h
      simpa using hsplit.2
    have hstru : stripNativeGroupId u = u := by
      unfold stripNativeGroupId
      rw [hnull]
      rfl
    simp only [Option.map_some', hstru]
    exact h

/-- C8: after teardown every window's persisted groups are exactly the old
groups with `nativeGroupId` stripped — id, name, containerId, rect and
lastMoved unchanged and no native reference surviving — and the durable
migration-complete flag is reset to `false`. -/
theorem cleanupNativeGroups_strips (now : Int) (st : CleanupState)
    (h : ∀ p ∈ st.windows, ∀ gs, p.2 = some gs →
      ungroupedCanonical gs = true) :
    (cleanupNativeGroups now st).migrationComplete = false
    ∧ ∀ p ∈ st.windows, ∀ gs, p.2 = some gs →
        (p.1, some (gs.map stripNativeGroupId))
            ∈ (cleanupNativeGroups now st).windows
        ∧ ∀ g ∈ gs,
            (stripNativeGroupId g).id = g.id
            ∧ (stripNativeGroupId g).name = g.name
            ∧ (stripNativeGroupId g).containerId = g.containerId
            ∧ (stripNativeGroupId g).rect = g.rect
            ∧ (stripNativeGroupId g).lastMoved = g.lastMoved
            ∧ (stripNativeGroupId g).nativeGroupId.present = false := by
  constructor
  · rfl
  · intro p hp gs hgs
    constructor
    · have hcan : ungroupedCanonical gs = true := h p hp gs hgs
      have hfix : cleanupWindowGroups now gs = gs.map stripNativeGroupId := by
        unfold cleanupWindowGroups
        exact ensureUngrouped_fixpoint now _ (ungroupedCanonical_map_strip gs hcan)
      have hmem := List.mem_map_of_mem
        (fun q : Int × Option (List Group) => (q.1, match q.2 with
          | none => none
          | some gs2 => some (cleanupWindowGroups now gs2))) hp
      simp only [hgs] at hmem
      rw [hfix] at hmem
      exact hmem
    · intro g hg
      refine ⟨stripNativeGroupId_id g, ?_, ?_, ?_, ?_, ?_⟩
      · unfold stripNativeGroupId
        split <;> rfl
      · unfold stripNativeGroupId
        split <;> rfl
      · unfold stripNativeGroupId
        split <;> rfl
      · unfold stripNativeGroupId
        split <;> rfl
      · unfold stripNativeGroupId
        split
        · rfl
        · next hnp => simpa using hnp

/-- Witness for C8 at a one-window state whose group 0 is mirrored as native
group 9: after cleanup the migration flag is false and the window stores the
stripped groups. -/
theorem cleanupNativeGroups_strips_witness :
    (cleanupNativeGroups 4
        ⟨[(1, some [⟨0, "g", "browser-default", .ref 9, ⟨0, 0, 0, 0⟩, 2, none⟩,
            defaultUngroupedGroup 3])], true⟩).migrationComplete = false
    ∧ ((1 : Int), some ([⟨0, "g", "browser-default", .ref 9, ⟨0, 0, 0, 0⟩, 2,
          none⟩, defaultUngroupedGroup 3].map stripNativeGroupId))
        ∈ (cleanupNativeGroups 4
        ⟨[(1, some [⟨0, "g", "browser-default", .ref 9, ⟨0, 0, 0, 0⟩, 2, none⟩,
            defaultUngroupedGroup 3])], true⟩).windows :=
  have hmain := cleanupNativeGroups_strips 4
    ⟨[(1, some [⟨0, "g", "browser-default", .ref 9, ⟨0, 0, 0, 0⟩, 2, none⟩,
        defaultUngroupedGroup 3])], true⟩
    (by
      intro p hp gs hgs
      simp only [List.mem_singleton] at hp
      subst hp
      simp only [Option.some.injEq] at hgs
      subst hgs
      rfl)
  ⟨hmain.1,
   (hmain.2 (1, some [⟨0, "g", "browser-default", .ref 9, ⟨0, 0, 0, 0⟩, 2,
        none⟩, defaultUngroupedGroup 3])
      (List.mem_singleton.mpr rfl)
      [⟨0, "g", "browser-default", .ref 9, ⟨0, 0, 0, 0⟩, 2, none⟩,
        defaultUngroupedGroup 3] rfl).1⟩

end Panorama
